import Mathlib

/-!
Shallow embedding of the Code-to-docs multi-agent documentation pipeline
(`src/main.py`, `src/agents/verification.py`, `src/agents/file_bundler.py`,
`src/agents/code_parser.py`).

Modelling conventions:
* Python strings are modelled as `String` or, where character-level reasoning
  is needed (lowercasing, regex-style scanning), as `List Char`.  Python's
  `str.lower()` is Unicode-aware, but every string the code inspects is ASCII,
  so lowercasing is modelled on the ASCII range only.
* Calls to external services (the LLM gateway, the MCP server, the file
  system) are modelled as environment-supplied outcomes of type
  `Except String α`: `.error e` models the call raising an exception whose
  `str()` is `e`.
* Python dictionaries with optional keys are modelled as structures with
  `Option`-typed fields (`none` models an absent key); `d["k"]` on an absent
  key models a raised `KeyError`.
* JSON numbers are modelled as rationals (`ℚ`), which is exact for every
  numeric literal the code manipulates (the only score the code itself
  produces is `0`).
-/

namespace CodeToDocs

/-! ## Character/string utilities (Python `str.lower`, `str.upper`, `in`) -/

/-- Model of Python `str.lower()` on one character (ASCII range, which covers
every string the pipeline inspects). -/
def pyLowerChar (c : Char) : Char :=
  if c.isUpper then Char.ofNat (c.toNat + 32) else c

/-- Model of Python `str.upper()` on one character (ASCII range). -/
def pyUpperChar (c : Char) : Char :=
  if c.isLower then Char.ofNat (c.toNat - 32) else c

/-- Model of Python `str.lower()`. -/
def pyLower (s : List Char) : List Char := s.map pyLowerChar

/-- Model of Python `str.upper()`. -/
def pyUpper (s : List Char) : List Char := s.map pyUpperChar

/-- Model of the Python substring test `w in s` (contiguous substring). -/
def pyIn (w s : List Char) : Bool := decide (w <:+: s)

/-! ## `src/main.py` — documentation-type routing -/

/-- The two targets of the conditional edge out of `context_enrichment`
(`main.py`, `route_documentation_type`). -/
inductive Route where
  | readme_doc
  | function_doc
deriving DecidableEq, Repr

/-- Embedding of `route_documentation_type` (`src/main.py` lines 115–122):
`doc_type = state.get("doc_type", "readme").lower()`, then route to
`function_doc` when `"function" in doc_type or "api" in doc_type or
"func" in doc_type`, else `readme_doc`.  The `Option` argument models the
`.get` default for an absent `doc_type` key. -/
def route_documentation_type (doc_type : Option (List Char)) : Route :=
  let d := pyLower (doc_type.getD "readme".data)
  if pyIn "function".data d || pyIn "api".data d || pyIn "func".data d then
    Route.function_doc
  else
    Route.readme_doc

/-- Embedding of the doc-kind selection in the `main` message handler
(`src/main.py` lines 399–404): the raw message is lowercased, then
`doc_type = "function_api"` when any of `["function", "api", "func"]` occurs
in it, else `"readme"`. -/
def mainDocType (content : List Char) : List Char :=
  let user_input := pyLower content
  if pyIn "function".data user_input || pyIn "api".data user_input ||
      pyIn "func".data user_input then
    "function_api".data
  else
    "readme".data

/-! ## `src/agents/verification.py` — documentation validator -/

/-- A Validation Result, the JSON object the validator produces
(`verification.py`).  Fields are `Option`-typed because the success path
returns the LLM's JSON reply verbatim, which may lack any key, and the
failure record deliberately omits `suggestions`/`missing_elements`. -/
structure ValidationResult where
  is_valid : Option Bool
  validation_score : Option ℚ
  issues : Option (List String)
  suggestions : Option (List String)
  missing_elements : Option (List String)
  error : Option String
deriving DecidableEq, Repr

/-- The fixed record returned by `validate_documentation`'s `except` clause
(`verification.py` lines 65–71).  Note that it carries no `suggestions`
key. -/
def validationFailure (msg : String) : ValidationResult where
  is_valid := some false
  validation_score := some 0
  issues := some ["Failed to perform validation"]
  suggestions := none
  missing_elements := none
  error := some msg

/-- Embedding of `DocumentationValidator.validate_documentation`
(`verification.py` lines 19–71).  `llmInvoke` is the outcome of
`self.llm.invoke(messages)` (its reply text, or the exception message), and
`jsonLoads` is the outcome of `json.loads` on that reply.  The `try` block
covers both, and any failure is converted to `validationFailure`; the
function has no other outcome, so it never raises. -/
def validate_documentation (llmInvoke : Except String String)
    (jsonLoads : String → Except String ValidationResult) : ValidationResult :=
  match llmInvoke with
  | .error e => validationFailure e
  | .ok content =>
    match jsonLoads content with
    | .error e => validationFailure e
    | .ok v => v

/-- Outcome of `DocumentationValidator.process_user_feedback`
(`verification.py` lines 73–134): either the success dictionary
`\x7bstatus: "success", updated_documentation, validation_result,
improvements_applied\x7d` or, from its own `except` clause, the error
dictionary `\x7bstatus: "error", error, details\x7d` (which notably has no
`updated_documentation` key). -/
inductive PUFResult where
  | ok (updated_documentation : String) (validation_result : ValidationResult)
      (improvements_applied : String)
  | err (msg : String)
deriving DecidableEq, Repr

/-- Return value of the top-level policy `validate_and_process`
(`verification.py` lines 136–191), tagged by its `status` string.  The
`validated` case corresponds to the dictionary that also carries
`ready_for_bundling=true`. -/
inductive VPResult where
  | updated (documentation : String) (validation_result : ValidationResult)
      (improvements : String)
  | validated (documentation : String) (validation_result : ValidationResult)
  | error (msg : String) (details : String)
deriving DecidableEq, Repr

/-- The `documentation_result` argument of `validate_and_process`: a
dictionary whose `"documentation"` and `"code_analysis"` keys may be absent
(upstream stages pass `\x7b\x7d` after a failure). -/
structure DocumentationResult where
  documentation : Option String
  code_analysis : Option String
deriving DecidableEq, Repr

/-- Python truthiness of an optional string (`None` and `""` are falsy). -/
def pyTruthy : Option String → Bool
  | none => false
  | some s => !s.isEmpty

/-- Model of `json.dumps` on a list of strings (escaping of special
characters inside the items is elided; no item the pipeline produces needs
it). -/
def jsonDumpsList (l : List String) : String :=
  "[" ++ String.intercalate ", " (l.map (fun s => "\"" ++ s ++ "\"")) ++ "]"

/-- Embedding of `validate_and_process` (`verification.py` lines 136–191).

* `validateDoc` is the environment's outcome for the first
  `validator.validate_documentation(doc, ca, user_prompt)` call (total, per
  `validate_documentation` above; the `user_prompt` argument only feeds the
  LLM prompt and is folded into the environment function).
* `processUserFeedback` is the environment's outcome for
  `validator.process_user_feedback(repository_info, documentation_result, fb)`
  as a function of the feedback text `fb`.
* Dictionary accesses `documentation_result["documentation"]`,
  `["code_analysis"]`, `validation_result["is_valid"]`,
  `validation_result["suggestions"]` and `improved_doc["updated_documentation"]`
  raise `KeyError` when the key is absent; the surrounding `try` converts
  any such error to the `\x7bstatus: "error", ..., details: "Validation
  process failed"\x7d` dictionary.  (Python renders `str(KeyError(k))` as the
  key in quotes, written with `\x27` here.)

The second component of the result is the trace of feedback arguments passed
to `process_user_feedback`, recording how often (and with what argument) the
feedback-and-regenerate path ran. -/
def validate_and_process
    (validateDoc : String → String → ValidationResult)
    (processUserFeedback : String → PUFResult)
    (documentation_result : DocumentationResult)
    (user_feedback : Option String) : VPResult × List String :=
  match documentation_result.documentation with
  | none => (.error "\x27documentation\x27" "Validation process failed", [])
  | some doc =>
    match documentation_result.code_analysis with
    | none => (.error "\x27code_analysis\x27" "Validation process failed", [])
    | some ca =>
      let vr := validateDoc doc ca
      match vr.is_valid with
      | none => (.error "\x27is_valid\x27" "Validation process failed", [])
      | some valid =>
        if !valid || pyTruthy user_feedback then
          match (if pyTruthy user_feedback then user_feedback
                 else vr.suggestions.map jsonDumpsList) with
          | none => (.error "\x27suggestions\x27" "Validation process failed", [])
          | some fb =>
            match processUserFeedback fb with
            | .ok u v i => (.updated u v i, [fb])
            | .err _ =>
              (.error "\x27updated_documentation\x27" "Validation process failed",
                [fb])
        else
          (.validated doc vr, [])

/-! ## `src/agents/code_parser.py` — code structure extractor -/

/-- JSON values, used to model `json.loads` results that the code passes
through untyped. -/
inductive Json where
  | null
  | bool (b : Bool)
  | num (q : ℚ)
  | str (s : String)
  | arr (elems : List Json)
  | obj (fields : List (String × Json))

/-- Model of Python `str.strip()`: remove leading and trailing whitespace. -/
def pyStrip (s : List Char) : List Char :=
  ((s.dropWhile Char.isWhitespace).reverse.dropWhile Char.isWhitespace).reverse

/-- Embedding of the fence-stripping in `code_parser_work`
(`code_parser.py` lines 34–39): strip, drop a leading markdown fence
` ```json ` (7 characters) and a trailing ` ``` ` (3 characters), strip
again. -/
def cleanFences (s : List Char) : List Char :=
  let t := pyStrip s
  let t := if "```json".data.isPrefixOf t then t.drop 7 else t
  let t := if "```".data.isSuffixOf t then t.take (t.length - 3) else t
  pyStrip t

/-- Environment of one `code_parser_work` call: the
`mcp_response["messages"][2].content` access (which can raise `KeyError`),
the LLM's reply text, and the outcome of `json.loads` on the cleaned
reply. -/
structure ParserEnv where
  contentAccess : Except String String
  llmReply : List Char
  jsonLoads : List Char → Except String Json

/-- Result of `code_parser_work`: either the value parsed from the LLM reply,
returned as-is (`return json_dict`), or one of the error dictionaries,
carrying `raw_response` when the code echoes the raw reply. -/
inductive ParserResult where
  | elements (j : Json)
  | failure (error : String) (raw_response : Option (List Char))

/-- Embedding of `code_parser_work` (`code_parser.py` lines 7–51).  The
`except TypeError` branch of the source ("The response is not a valid JSON
array.") is unreachable here because `json.loads` applied to a `str` either
parses successfully (whatever the JSON's shape) or raises
`JSONDecodeError`, never `TypeError`; the embedding therefore has no
corresponding branch.  No retry of any kind is performed. -/
def code_parser_work (env : ParserEnv) : ParserResult :=
  match env.contentAccess with
  | .error e => .failure ("Failed to access mcp_response content: " ++ e) none
  | .ok _code =>
    let cleaned := cleanFences env.llmReply
    match env.jsonLoads cleaned with
    | .error e => .failure ("Failed to parse JSON response: " ++ e) (some env.llmReply)
    | .ok j => .elements j

/-! ## `src/agents/file_bundler.py` — documentation bundler -/

/-- One entry of the LLM's split of the documentation blob
(`separate_documentation`'s reply schema): name, markdown content, and the
suggested file name.  `generate_markdown_files` reads only `file_name` and
`content`. -/
structure SplitEntry where
  name : String
  content : String
  file_name : String
deriving DecidableEq, Repr

/-- Result of `DocumentationBundler.separate_documentation`
(`file_bundler.py` lines 40–86): the functions/classes split, or — from its
own `except` clause — an embedded error with both lists empty. -/
structure SeparatedDocs where
  functions : List SplitEntry
  classes : List SplitEntry
  error : Option String
deriving DecidableEq, Repr

/-- A Bundle Result, the dictionary returned by `bundle_documentation`.
`Option` fields model keys that are absent in some outcomes (in particular,
`zip_file` is only ever added by the `confirmation=false` archival step). -/
structure BundleResult where
  status : String
  base_directory : Option String
  generated_files : Option (List String)
  zip_file : Option String
  message : Option String
  error : Option String
  details : Option String
deriving DecidableEq, Repr

/-- Environment of one `bundle_documentation` call: the timestamp chosen by
`_create_output_directories`, the outcome of `separate_documentation`, the
outcome of each `open(path, "w")`/`write` (`none` = success, `some msg` =
the raised exception's message), and the outcome of `shutil.make_archive`. -/
structure BundlerEnv where
  timestamp : String
  separated : SeparatedDocs
  writeErr : String → Option String
  archiveErr : Option String

/-- One loop of `generate_markdown_files` (`file_bundler.py` lines 101–116):
write each entry's `content` verbatim to `<dir>/<file_name>.md`,
accumulating the path list; the first failing write raises, discarding the
accumulated list (files already on disk stay there, but no list of them is
returned).  The second component of the success value is the write trace
(path, content), in order. -/
def writeEntries (writeErr : String → Option String) (dir : String) :
    List SplitEntry → Except String (List String × List (String × String))
  | [] => .ok ([], [])
  | e :: rest =>
    let path := dir ++ "/" ++ e.file_name ++ ".md"
    match writeErr path with
    | some msg => .error msg
    | none =>
      match writeEntries writeErr dir rest with
      | .error m => .error m
      | .ok (ps, tr) => .ok (path :: ps, (path, e.content) :: tr)

/-- Embedding of `DocumentationBundler.generate_markdown_files`
(`file_bundler.py` lines 88–121): functions loop, then classes loop, one
accumulated path list; any failure is re-raised as the generic
`Exception("Failed to generate markdown files: ...")`. -/
def generate_markdown_files (writeErr : String → Option String)
    (sep : SeparatedDocs) (functions_dir classes_dir : String) :
    Except String (List String × List (String × String)) :=
  match writeEntries writeErr functions_dir sep.functions with
  | .error m => .error ("Failed to generate markdown files: " ++ m)
  | .ok (ps1, tr1) =>
    match writeEntries writeErr classes_dir sep.classes with
    | .error m => .error ("Failed to generate markdown files: " ++ m)
    | .ok (ps2, tr2) => .ok (ps1 ++ ps2, tr1 ++ tr2)

/-- One file-system write: overwrite the entry at the path if it exists,
else append it.  The file system is an association list (path, content). -/
def fsWrite (fs : List (String × String)) (p c : String) :
    List (String × String) :=
  if fs.any (fun q => q.1 = p) then
    fs.map (fun q => if q.1 = p then (p, c) else q)
  else fs ++ [(p, c)]

/-- Replay a write trace on a file system. -/
def applyWrites (fs : List (String × String)) (ws : List (String × String)) :
    List (String × String) :=
  ws.foldl (fun acc w => fsWrite acc w.1 w.2) fs

/-- The error dictionary of `bundle_documentation`'s `except` clause
(`file_bundler.py` lines 189–194). -/
def bundleError (msg : String) : BundleResult where
  status := "error"
  base_directory := none
  generated_files := none
  zip_file := none
  message := none
  error := some msg
  details := some "Failed to bundle documentation"

/-- The Bundle Result after a successful archival step: the `"generated"`
dictionary updated by `result.update(...)` (`file_bundler.py` lines
181–185). -/
def bundledResult (base_dir : String) (files : List String) : BundleResult where
  status := "bundled"
  base_directory := some base_dir
  generated_files := some files
  zip_file := some (base_dir ++ ".zip")
  message := some ("Documentation bundled in " ++ (base_dir ++ ".zip"))
  error := none
  details := none

/-- Embedding of `bundle_documentation` (`file_bundler.py` lines 141–194).
Returns the Bundle Result, the markdown write trace, and — when
`shutil.make_archive` ran successfully — the archive path together with the
archived directory tree (the file system produced by the writes: everything
written lives under `base_dir`, which is exactly what `make_archive`
zips). -/
def bundle_documentation (env : BundlerEnv) (output_dir : String)
    (user_confirmation : Bool) :
    BundleResult × List (String × String) ×
      Option (String × List (String × String)) :=
  let base_dir := output_dir ++ "/" ++ env.timestamp
  let functions_dir := base_dir ++ "/functions"
  let classes_dir := base_dir ++ "/classes"
  match generate_markdown_files env.writeErr env.separated functions_dir
      classes_dir with
  | .error m => (bundleError m, [], none)
  | .ok (files, tr) =>
    let result : BundleResult :=
      { status := "generated", base_directory := some base_dir,
        generated_files := some files, zip_file := none,
        message := some ("Generated " ++ toString files.length ++
          " documentation files"),
        error := none, details := none }
    if !user_confirmation then
      (match env.archiveErr with
       | some m => (bundleError ("Failed to create zip bundle: " ++ m), tr, none)
       | none =>
         (bundledResult base_dir files, tr,
          some (base_dir ++ ".zip", applyWrites [] tr)))
    else
      (result, tr, none)

/-! ## `src/main.py` — orchestration graph (`create_documentation_graph`) -/

/-- The nodes of the LangGraph workflow (`main.py` lines 320–328), named
after the `add_node` labels. -/
inductive Node where
  | mcpConnection
  | codeParser
  | contextEnrichment
  | readmeDocumentation
  | functionDocumentation
  | verification
  | fileBundler
  | finalReport
deriving DecidableEq, Repr

/-- The `AgentState` record threaded through the graph (`main.py` lines
23–34).  Payloads that no modeled claim inspects are kept opaque as
`String`s; `Option` models the empty-dictionary placeholders.  The
`messages` field is omitted: it is only ever appended to (via
`operator.add`) and never read by any node. -/
structure GraphState where
  user_input : String
  repository_info : String
  doc_type : List Char
  mcp_response : Option String
  code_analysis : Option String
  context_data : String
  documentation : Option String
  validation_result : Option VPResult
  bundle_result : Option BundleResult
  error : String
deriving DecidableEq, Repr

/-- Environment of one graph run: the outcome of each stage's underlying
operation (the awaited library/agent call inside the stage's `try` block).
`.error e` models that call raising an exception with message `e`. -/
structure GraphEnv where
  mcpOutcome : Except String String
  parserOutcome : Except String String
  contextOutcome : Except String String
  readmeOutcome : Except String String
  funcOutcome : Except String String
  verifyOutcome : Except String VPResult
  bundleOutcome : Except String BundleResult

/-- Success payload of a stage outcome, or `none` for the empty-dict
placeholder a failing stage stores. -/
def exOpt {α : Type} : Except String α → Option α
  | .ok a => some a
  | .error _ => none

/-- The `error` field a stage patch carries: the exception message on
failure, the empty string on success (every stage resets `error` on
success). -/
def errStr {α : Type} : Except String α → String
  | .ok _ => ""
  | .error e => e

/-- Success payload of a string-valued stage outcome, or `""` (the failing
context stage stores an empty string, not an empty dict). -/
def exStr : Except String String → String
  | .ok r => r
  | .error _ => ""

/-- The inline UI message a stage emits on failure (progress and success
messages are not modeled). -/
def failMsg {α : Type} (pre : String) : Except String α → List String
  | .ok _ => []
  | .error e => [pre ++ e]

/-- Execute one node (`main.py` agents, lines 37–257): each stage runs its
underlying operation inside `try`, returning on success a patch with its
output field and `error=""`, and on failure a patch with the empty
placeholder and `error=str(e)` — it never re-raises.  The second component
is the stage's inline failure message (`main.py` lines 57, 84, 110, 149,
178, 212, 255).  `final_report` returns the state unchanged; its rendered
report is modeled separately by `reportOf`. -/
def execNode (env : GraphEnv) : Node → GraphState → GraphState × List String
  | .mcpConnection, s =>
    ({ s with mcp_response := exOpt env.mcpOutcome, error := errStr env.mcpOutcome },
     failMsg "❌ MCP Connection failed: " env.mcpOutcome)
  | .codeParser, s =>
    ({ s with code_analysis := exOpt env.parserOutcome, error := errStr env.parserOutcome },
     failMsg "❌ Code parsing failed: " env.parserOutcome)
  | .contextEnrichment, s =>
    ({ s with context_data := exStr env.contextOutcome, error := errStr env.contextOutcome },
     failMsg "❌ Context enrichment failed: " env.contextOutcome)
  | .readmeDocumentation, s =>
    ({ s with documentation := exOpt env.readmeOutcome, error := errStr env.readmeOutcome },
     failMsg "❌ README documentation generation failed: " env.readmeOutcome)
  | .functionDocumentation, s =>
    ({ s with documentation := exOpt env.funcOutcome, error := errStr env.funcOutcome },
     failMsg "❌ Function API documentation generation failed: " env.funcOutcome)
  | .verification, s =>
    ({ s with validation_result := exOpt env.verifyOutcome, error := errStr env.verifyOutcome },
     failMsg "❌ Verification failed: " env.verifyOutcome)
  | .fileBundler, s =>
    ({ s with bundle_result := exOpt env.bundleOutcome, error := errStr env.bundleOutcome },
     failMsg "❌ Bundling failed: " env.bundleOutcome)
  | .finalReport, s => (s, [])

/-- The edges of the graph (`main.py` lines 330–354): a linear chain with
one conditional edge out of `context_enrichment`, routed by
`route_documentation_type`; `none` is the `END` transition after
`final_report`. -/
def nextNode : Node → GraphState → Option Node
  | .mcpConnection, _ => some .codeParser
  | .codeParser, _ => some .contextEnrichment
  | .contextEnrichment, s =>
    some (if route_documentation_type (some s.doc_type) = Route.function_doc
      then Node.functionDocumentation else Node.readmeDocumentation)
  | .readmeDocumentation, _ => some .verification
  | .functionDocumentation, _ => some .verification
  | .verification, _ => some .fileBundler
  | .fileBundler, _ => some .finalReport
  | .finalReport, _ => none

/-- Outcome of one graph run: final state, visited nodes in order, emitted
failure messages, and whether the `END` transition was reached. -/
structure RunResult where
  state : GraphState
  visited : List Node
  messages : List String
  reachedEnd : Bool
deriving DecidableEq, Repr

/-- Fuelled execution of the graph from a node: run the node, follow
`nextNode` until `END` (`reachedEnd := true`) or until the fuel runs out
(`reachedEnd := false`). -/
def runSteps (env : GraphEnv) : Nat → Node → GraphState → RunResult
  | 0, _, s => ⟨s, [], [], false⟩
  | fuel + 1, n, s =>
    let p := execNode env n s
    match nextNode n p.1 with
    | none => ⟨p.1, [n], p.2, true⟩
    | some m =>
      let r := runSteps env fuel m p.1
      ⟨r.state, n :: r.visited, p.2 ++ r.messages, r.reachedEnd⟩

/-- One full run of the compiled graph from the entry point
`mcp_connection`; the fuel 8 is one more than the number of nodes. -/
def runGraph (env : GraphEnv) (s0 : GraphState) : RunResult :=
  runSteps env 8 Node.mcpConnection s0

/-- The validate-and-process result's `"validation_result"` entry
(`report_agent` reads `state.get("validation_result", {}).get("validation_result", {})`);
the `status="error"` dictionary carries no such key. -/
def vpValidation : VPResult → Option ValidationResult
  | .updated _ v _ => some v
  | .validated _ v => some v
  | .error _ _ => none

/-- The final report (`report_agent`, `main.py` lines 260–314), as rendered
data. -/
inductive Report where
  | failed (err : String)
  | summary (repo : String) (docType : List Char) (is_valid : Bool) (score : ℚ)
      (issuesCount filesCount : Nat) (baseDir zipFile : String)
deriving DecidableEq, Repr

/-- The summary branch of `report_agent` (`main.py` lines 274–307): every
field is read with a `.get` default, so the validation and bundle sections
are rendered even when those state fields are empty. -/
def summaryOf (s : GraphState) : Report :=
  Report.summary s.repository_info (pyUpper s.doc_type)
    (((s.validation_result.bind vpValidation).bind ValidationResult.is_valid).getD false)
    (((s.validation_result.bind vpValidation).bind ValidationResult.validation_score).getD 0)
    (((s.validation_result.bind vpValidation).bind ValidationResult.issues).getD []).length
    ((s.bundle_result.bind BundleResult.generated_files).getD []).length
    ((s.bundle_result.bind BundleResult.base_directory).getD "N/A")
    ((s.bundle_result.bind BundleResult.zip_file).getD "N/A")

/-- The report produced by `report_agent` from the final state: if the
`error` field is truthy (non-empty) it echoes it and returns early,
rendering no sections; otherwise it renders the summary. -/
def reportOf (s : GraphState) : Report :=
  if s.error = "" then summaryOf s else Report.failed s.error

/-- The initial state built by the message handler for the end-to-end
sample run (`main.py` lines 428–440). -/
def sampleState0 : GraphState where
  user_input := "Generate README documentation for repository acme/widget"
  repository_info := "Prepare context for repository with username `acme` and repository name `widget`."
  doc_type := "readme".data
  mcp_response := none
  code_analysis := none
  context_data := ""
  documentation := none
  validation_result := none
  bundle_result := none
  error := ""

/-- A run environment in which only the first stage (the MCP connection)
fails; every later stage succeeds. -/
def sampleGraphEnvMcpFail : GraphEnv where
  mcpOutcome := Except.error "boom"
  parserOutcome := Except.ok "analysis"
  contextOutcome := Except.ok "context"
  readmeOutcome := Except.ok "docs"
  funcOutcome := Except.ok "api docs"
  verifyOutcome := Except.ok (VPResult.validated "docs" (validationFailure "x"))
  bundleOutcome := Except.ok (bundledResult "docs_output/20250101_000000" ["docs_output/20250101_000000/functions/f.md"])

/-- A sample split with one function entry, used to instantiate the bundler
theorems on concrete inputs. -/
def sampleSplitOne : SeparatedDocs where
  functions := [⟨"f", "doc of f", "f"⟩]
  classes := []
  error := none

/-- A sample split with one function and one class entry. -/
def sampleSplitTwo : SeparatedDocs where
  functions := [⟨"f", "doc of f", "f"⟩]
  classes := [⟨"C", "doc of C", "c_class"⟩]
  error := none

/-- A bundler environment in which every write and the archive step
succeed. -/
def sampleEnvOk : BundlerEnv where
  timestamp := "20250101_000000"
  separated := sampleSplitOne
  writeErr := fun _ => none
  archiveErr := none

/-- A bundler environment with two split entries and no failures. -/
def sampleEnvTwo : BundlerEnv where
  timestamp := "20250101_000000"
  separated := sampleSplitTwo
  writeErr := fun _ => none
  archiveErr := none

/-- A bundler environment in which every file write fails. -/
def sampleEnvBadWrite : BundlerEnv where
  timestamp := "20250101_000000"
  separated := sampleSplitOne
  writeErr := fun _ => some "disk full"
  archiveErr := none

/-! ## `src/main.py` — repository extraction in the message handler -/

/-- The character class `[a-zA-Z0-9_-]` of the repository pattern
(`main.py` line 408). -/
def isWordChar (c : Char) : Bool := c.isAlphanum || c = '_' || c = '-'

/-- The regex class `\s` (ASCII range; the handler's messages are ASCII). -/
def isPySpace (c : Char) : Bool :=
  c = ' ' || c = '\t' || c = '\n' || c = '\r' || c = '\x0b' || c = '\x0c'

/-- Match `\s*([a-zA-Z0-9_-]+/[a-zA-Z0-9_-]+)` at the start of `s` and
return the captured group: greedily skip whitespace, take a maximal
non-empty word run, require a literal `/`, take a second maximal non-empty
word run.  (No backtracking is needed: `/` and whitespace are not word
characters, so shorter runs can never extend a failed match.) -/
def matchGroupAt (s : List Char) : Option (List Char) :=
  let s1 := s.dropWhile isPySpace
  let run1 := s1.takeWhile isWordChar
  let rest1 := s1.drop run1.length
  let run2 := (rest1.drop 1).takeWhile isWordChar
  if run1.isEmpty = false ∧ rest1.head? = some '/' ∧ run2.isEmpty = false then
    some (run1 ++ '/' :: run2)
  else none

/-- Match the full pattern `(?:repository|repo)?\s*([a-zA-Z0-9_-]+/...)` at
one position, in the regex's backtracking order over the optional greedy
prefix: literal `repository` first, then `repo`, then the empty prefix. -/
def matchAt (s : List Char) : Option (List Char) :=
  match (if "repository".data.isPrefixOf s then matchGroupAt (s.drop 10)
    else none) with
  | some r => some r
  | none =>
    match (if "repo".data.isPrefixOf s then matchGroupAt (s.drop 4)
      else none) with
    | some r => some r
    | none => matchGroupAt s

/-- Model of `re.search`: try the pattern at each position, left to
right. -/
def searchRepo : List Char → Option (List Char)
  | [] => matchAt []
  | c :: rest =>
    match matchAt (c :: rest) with
    | some r => some r
    | none => searchRepo rest

/-- Embedding of the repository extraction in the `main` message handler
(`main.py` lines 399–417): the whole raw message is lowercased
(`user_input = message.content.lower()`) before
`re.search(repo_pattern, user_input)` runs, so the pattern only ever sees
the lowercased text. -/
def extractRepo (content : List Char) : Option (List Char) :=
  searchRepo (pyLower content)

/-! ## Theorems -/

theorem pyIn_eq_true {w s : List Char} : pyIn w s = true ↔ w <:+: s := by
  simp [pyIn]

/-- C1: the router sends execution to the function/API drafting node exactly
when the lowercased documentation-kind string contains `"function"`, `"api"`
or `"func"` as a substring, and to the README node for every other string;
equivalently, the orchestrator's message handler sets doc kind
`"function_api"` iff the lowercased raw message contains one of those three
substrings. -/
theorem C1_routing_iff (d msg : List Char) :
    (route_documentation_type (some d) = Route.function_doc ↔
      ("function".data <:+: pyLower d ∨ "api".data <:+: pyLower d ∨
        "func".data <:+: pyLower d)) ∧
    (route_documentation_type (some d) = Route.readme_doc ↔
      ¬ ("function".data <:+: pyLower d ∨ "api".data <:+: pyLower d ∨
        "func".data <:+: pyLower d)) ∧
    (mainDocType msg = "function_api".data ↔
      ("function".data <:+: pyLower msg ∨ "api".data <:+: pyLower msg ∨
        "func".data <:+: pyLower msg)) := by
  refine ⟨?_, ?_, ?_⟩
  · simp [route_documentation_type, pyIn, or_assoc]
    tauto
  · simp [route_documentation_type, pyIn, or_assoc]
  · simp [mainDocType, pyIn, or_assoc]
    tauto

/-- C4: any failure during validation — an LLM invocation error or an
unparseable reply — yields the record with `is_valid=false`,
`validation_score=0`, `issues=["Failed to perform validation"]` and the
error message; `validate_documentation` itself is total (it never raises,
and its codomain has no separate error channel). -/
theorem C4_validate_failure_shape (llmInvoke : Except String String)
    (jsonLoads : String → Except String ValidationResult) (e : String)
    (hfail : llmInvoke = Except.error e ∨
      ∃ c, llmInvoke = Except.ok c ∧ jsonLoads c = Except.error e) :
    validate_documentation llmInvoke jsonLoads = validationFailure e ∧
    (validationFailure e).is_valid = some false ∧
    (validationFailure e).validation_score = some 0 ∧
    (validationFailure e).issues = some ["Failed to perform validation"] ∧
    (validationFailure e).error = some e := by
  refine ⟨?_, rfl, rfl, rfl, rfl⟩
  rcases hfail with h | ⟨c, hc, hl⟩
  · rw [h]; rfl
  · rw [hc]; simp [validate_documentation, hl]

theorem C4_validate_failure_shape_witness :
    validate_documentation (Except.error "boom") (fun _ => Except.error "x") =
      validationFailure "boom" ∧
    (validationFailure "boom").is_valid = some false ∧
    (validationFailure "boom").validation_score = some 0 ∧
    (validationFailure "boom").issues = some ["Failed to perform validation"] ∧
    (validationFailure "boom").error = some "boom" :=
  C4_validate_failure_shape (Except.error "boom") (fun _ => Except.error "x")
    "boom" (Or.inl rfl)

/-- C3 counterexample: when the first validation returns the validator's own
failure record (`is_valid=false` but no `suggestions` key) and no user
feedback was supplied, `json.dumps(validation_result["suggestions"])` raises
`KeyError` before `process_user_feedback` is ever called: the policy
returns `status="error"` (not `"updated"`) and the call trace is empty (the
feedback-and-regenerate path ran zero times, not exactly once). -/
theorem C3_counterexample :
    (validationFailure "llm down").is_valid = some false ∧
    validate_and_process (fun _ _ => validationFailure "llm down")
        (fun _ => PUFResult.err "unused") ⟨some "doc", some "ca"⟩ none =
      (VPResult.error "\x27suggestions\x27" "Validation process failed", []) :=
  ⟨rfl, rfl⟩

theorem validate_and_process_calls_le_one
    (validateDoc : String → String → ValidationResult)
    (processUserFeedback : String → PUFResult)
    (dr : DocumentationResult) (fb : Option String) :
    (validate_and_process validateDoc processUserFeedback dr fb).2.length ≤ 1 := by
  unfold validate_and_process
  rcases hd : dr.documentation with _ | doc
  · simp
  rcases hc : dr.code_analysis with _ | ca
  · simp
  rcases hv : (validateDoc doc ca).is_valid with _ | valid
  · simp [hv]
  simp only [hv]
  by_cases hb : (!valid || pyTruthy fb) = true
  · rw [if_pos hb]
    rcases hfb : (if pyTruthy fb = true then fb
        else Option.map jsonDumpsList (validateDoc doc ca).suggestions) with _ | s
    · simp [hfb]
    · simp only [hfb]
      rcases hp : processUserFeedback s with ⟨u, v, i⟩ | m <;> simp
  · rw [if_neg hb]
    simp

/-- C3 (amended): provided a feedback text is actually available and the
regenerate path succeeds, the claim holds: (1) with truthy explicit feedback
`s` and a successful regenerate call, the path runs exactly once with `s`
and the result is tagged `status="updated"`; (2) with no truthy feedback,
`is_valid=false` and a `suggestions` key present, the path runs exactly once
with the JSON-encoded suggestions and the result is tagged
`status="updated"`; (3) with `is_valid=true` and no truthy feedback the
original draft is returned tagged `status="validated"` (the
`ready_for_bundling=true` dictionary) with no regenerate call; (4) in every
case the regenerate path runs at most once and, being a separate function,
never recurses back into the top-level policy.  (When feedback is absent and
the first validation lacks a `suggestions` key, or when the regenerate path
fails, the policy instead returns `status="error"` — see
`C3_counterexample`.) -/
theorem C3_amended
    (validateDoc : String → String → ValidationResult)
    (puf : String → PUFResult)
    (doc ca : String) (fb : Option String) (b : Bool)
    (hvalid : (validateDoc doc ca).is_valid = some b) :
    (∀ s, fb = some s → s ≠ "" → ∀ u v i, puf s = PUFResult.ok u v i →
      validate_and_process validateDoc puf ⟨some doc, some ca⟩ fb =
        (VPResult.updated u v i, [s])) ∧
    (pyTruthy fb = false → b = false →
      ∀ sugg, (validateDoc doc ca).suggestions = some sugg →
      ∀ u v i, puf (jsonDumpsList sugg) = PUFResult.ok u v i →
      validate_and_process validateDoc puf ⟨some doc, some ca⟩ fb =
        (VPResult.updated u v i, [jsonDumpsList sugg])) ∧
    (pyTruthy fb = false → b = true →
      validate_and_process validateDoc puf ⟨some doc, some ca⟩ fb =
        (VPResult.validated doc (validateDoc doc ca), [])) ∧
    (validate_and_process validateDoc puf ⟨some doc, some ca⟩ fb).2.length ≤ 1 := by
  refine ⟨?_, ?_, ?_,
    validate_and_process_calls_le_one validateDoc puf ⟨some doc, some ca⟩ fb⟩
  · intro s hs hne u v i hok
    subst hs
    have hse : s.isEmpty = false := by
      rcases h : s.isEmpty with _ | _
      · rfl
      · exact absurd (by simpa [String.isEmpty_iff] using h) hne
    have ht : pyTruthy (some s) = true := by
      simp [pyTruthy, hse]
    unfold validate_and_process
    simp [hvalid, ht, hok]
  · intro hf hb sugg hsugg u v i hok
    subst hb
    unfold validate_and_process
    simp [hvalid, hf, hsugg, hok]
  · intro hf hb
    subst hb
    unfold validate_and_process
    simp [hvalid, hf]

theorem C3_amended_witness :
    validate_and_process
        (fun _ _ =>
          { is_valid := some false, validation_score := some 0,
            issues := some [], suggestions := some ["add examples"],
            missing_elements := none, error := none })
        (fun _ => PUFResult.ok "newdoc" (validationFailure "v") "improv")
        ⟨some "doc", some "ca"⟩ none =
      (VPResult.updated "newdoc" (validationFailure "v") "improv",
        [jsonDumpsList ["add examples"]]) :=
  ((C3_amended
      (fun _ _ =>
        { is_valid := some false, validation_score := some 0,
          issues := some [], suggestions := some ["add examples"],
          missing_elements := none, error := none })
      (fun _ => PUFResult.ok "newdoc" (validationFailure "v") "improv")
      "doc" "ca" none false rfl).2.1)
    rfl rfl ["add examples"] rfl "newdoc" (validationFailure "v") "improv" rfl

theorem writeEntries_ok_of_nofail (we : String → Option String) (dir : String)
    (es : List SplitEntry) (h : ∀ p, we p = none) :
    writeEntries we dir es =
      Except.ok (es.map (fun e => dir ++ "/" ++ e.file_name ++ ".md"),
        es.map (fun e => (dir ++ "/" ++ e.file_name ++ ".md", e.content))) := by
  induction es with
  | nil => rfl
  | cons e rest ih => simp [writeEntries, h, ih]

theorem fsWrite_key_mem (fs : List (String × String)) (q d p : String) :
    (∃ c, (p, c) ∈ fsWrite fs q d) ↔ (∃ c, (p, c) ∈ fs) ∨ p = q := by
  unfold fsWrite
  by_cases h : fs.any (fun r => r.1 = q) = true
  · rw [if_pos h]
    constructor
    · rintro ⟨c, hc⟩
      rcases List.mem_map.mp hc with ⟨r, hr, he⟩
      by_cases hq : r.1 = q
      · rw [if_pos hq] at he
        injection he with h1 h2
        exact Or.inr h1.symm
      · rw [if_neg hq] at he
        exact Or.inl ⟨c, he ▸ hr⟩
    · rintro (⟨c, hc⟩ | rfl)
      · by_cases hq : p = q
        · subst hq
          exact ⟨d, List.mem_map.mpr ⟨(p, c), hc, by simp⟩⟩
        · exact ⟨c, List.mem_map.mpr ⟨(p, c), hc, by simp [hq]⟩⟩
      · rcases List.any_eq_true.mp h with ⟨r, hr, hq⟩
        simp only [decide_eq_true_eq] at hq
        exact ⟨d, List.mem_map.mpr ⟨r, hr, by simp [hq]⟩⟩
  · rw [if_neg h]
    constructor
    · rintro ⟨c, hc⟩
      rcases List.mem_append.mp hc with hin | hin
      · exact Or.inl ⟨c, hin⟩
      · simp only [List.mem_singleton] at hin
        injection hin with h1 h2
        exact Or.inr h1
    · rintro (⟨c, hc⟩ | rfl)
      · exact ⟨c, List.mem_append.mpr (Or.inl hc)⟩
      · exact ⟨d, List.mem_append.mpr (Or.inr (by simp))⟩

theorem applyWrites_cons (fs : List (String × String)) (w : String × String)
    (ws : List (String × String)) :
    applyWrites fs (w :: ws) = applyWrites (fsWrite fs w.1 w.2) ws := rfl

theorem applyWrites_key_mem (ws : List (String × String))
    (fs : List (String × String)) (p : String) :
    (∃ c, (p, c) ∈ applyWrites fs ws) ↔
      (∃ c, (p, c) ∈ fs) ∨ (∃ c, (p, c) ∈ ws) := by
  induction ws generalizing fs with
  | nil => simp [applyWrites]
  | cons w rest ih =>
    rw [applyWrites_cons, ih (fsWrite fs w.1 w.2)]
    constructor
    · rintro (⟨c, hc⟩ | ⟨c, hc⟩)
      · rcases (fsWrite_key_mem fs w.1 w.2 p).mp ⟨c, hc⟩ with hfs | rfl
        · exact Or.inl hfs
        · exact Or.inr ⟨w.2, by simp⟩
      · exact Or.inr ⟨c, List.mem_cons_of_mem w hc⟩
    · rintro (⟨c, hc⟩ | ⟨c, hc⟩)
      · exact Or.inl ((fsWrite_key_mem fs w.1 w.2 p).mpr (Or.inl ⟨c, hc⟩))
      · rcases List.mem_cons.mp hc with heq | hrest
        · exact Or.inl ((fsWrite_key_mem fs w.1 w.2 p).mpr
            (Or.inr (congrArg Prod.fst heq)))
        · exact Or.inr ⟨c, hrest⟩

/-- C5: for a bundling call whose file writes and archive step succeed, the
`confirmation=false` variant reports status `"bundled"` with an archive path
equal to the timestamped output directory suffixed with `".zip"` (and the
whole directory tree is archived into that file), while the
`confirmation=true` variant reports status `"generated"`, creates no
archive, and carries no `zip_file` key. -/
theorem C5_confirmation_controls_zip (env : BundlerEnv) (output_dir : String)
    (files : List String) (tr : List (String × String))
    (hgen : generate_markdown_files env.writeErr env.separated
        (output_dir ++ "/" ++ env.timestamp ++ "/functions")
        (output_dir ++ "/" ++ env.timestamp ++ "/classes") =
      Except.ok (files, tr))
    (harch : env.archiveErr = none) :
    ((bundle_documentation env output_dir false).1.status = "bundled" ∧
      (bundle_documentation env output_dir false).1.base_directory =
        some (output_dir ++ "/" ++ env.timestamp) ∧
      (bundle_documentation env output_dir false).1.zip_file =
        some (output_dir ++ "/" ++ env.timestamp ++ ".zip") ∧
      (bundle_documentation env output_dir false).2.2 =
        some (output_dir ++ "/" ++ env.timestamp ++ ".zip", applyWrites [] tr)) ∧
    ((bundle_documentation env output_dir true).1.status = "generated" ∧
      (bundle_documentation env output_dir true).1.zip_file = none ∧
      (bundle_documentation env output_dir true).2.2 = none) := by
  unfold bundle_documentation
  simp only [hgen, harch]
  simp [bundledResult]

theorem C5_confirmation_controls_zip_witness :
    ((bundle_documentation sampleEnvOk "docs_output" false).1.status =
        "bundled" ∧
      (bundle_documentation sampleEnvOk "docs_output" false).1.base_directory =
        some "docs_output/20250101_000000" ∧
      (bundle_documentation sampleEnvOk "docs_output" false).1.zip_file =
        some "docs_output/20250101_000000.zip" ∧
      (bundle_documentation sampleEnvOk "docs_output" false).2.2 =
        some ("docs_output/20250101_000000.zip",
          [("docs_output/20250101_000000/functions/f.md", "doc of f")])) ∧
    ((bundle_documentation sampleEnvOk "docs_output" true).1.status =
        "generated" ∧
      (bundle_documentation sampleEnvOk "docs_output" true).1.zip_file = none ∧
      (bundle_documentation sampleEnvOk "docs_output" true).2.2 = none) :=
  C5_confirmation_controls_zip sampleEnvOk "docs_output"
    ["docs_output/20250101_000000/functions/f.md"]
    [("docs_output/20250101_000000/functions/f.md", "doc of f")]
    (by rfl) rfl

/-- C6: a Draft Documentation bundled with `confirmation=false` that
completes without error yields `generated_files` of length equal to the
number of split entries (functions plus classes), a write trace in which
each entry's content is written verbatim to `<subdir>/<file_name>.md` under
`functions/` or `classes/` of the timestamped directory, and an archive at
`<base_dir>.zip` whose file set is exactly the generated paths. -/
theorem C6_roundtrip (env : BundlerEnv) (output_dir : String)
    (hw : ∀ p, env.writeErr p = none) (harch : env.archiveErr = none) :
    ∃ files tr arch,
      bundle_documentation env output_dir false =
        (bundledResult (output_dir ++ "/" ++ env.timestamp) files, tr,
          some (output_dir ++ "/" ++ env.timestamp ++ ".zip", arch)) ∧
      files.length =
        env.separated.functions.length + env.separated.classes.length ∧
      tr = env.separated.functions.map
             (fun e => (output_dir ++ "/" ++ env.timestamp ++ "/functions" ++
               "/" ++ e.file_name ++ ".md", e.content)) ++
           env.separated.classes.map
             (fun e => (output_dir ++ "/" ++ env.timestamp ++ "/classes" ++
               "/" ++ e.file_name ++ ".md", e.content)) ∧
      files = tr.map Prod.fst ∧
      arch = applyWrites [] tr ∧
      (∀ p, (∃ c, (p, c) ∈ arch) ↔ p ∈ files) := by
  have hgf := writeEntries_ok_of_nofail env.writeErr
    (output_dir ++ "/" ++ env.timestamp ++ "/functions")
    env.separated.functions hw
  have hgc := writeEntries_ok_of_nofail env.writeErr
    (output_dir ++ "/" ++ env.timestamp ++ "/classes")
    env.separated.classes hw
  refine ⟨env.separated.functions.map
      (fun e => output_dir ++ "/" ++ env.timestamp ++ "/functions" ++ "/" ++
        e.file_name ++ ".md") ++
    env.separated.classes.map
      (fun e => output_dir ++ "/" ++ env.timestamp ++ "/classes" ++ "/" ++
        e.file_name ++ ".md"),
    env.separated.functions.map
      (fun e => (output_dir ++ "/" ++ env.timestamp ++ "/functions" ++ "/" ++
        e.file_name ++ ".md", e.content)) ++
    env.separated.classes.map
      (fun e => (output_dir ++ "/" ++ env.timestamp ++ "/classes" ++ "/" ++
        e.file_name ++ ".md", e.content)),
    applyWrites []
      (env.separated.functions.map
        (fun e => (output_dir ++ "/" ++ env.timestamp ++ "/functions" ++ "/" ++
          e.file_name ++ ".md", e.content)) ++
      env.separated.classes.map
        (fun e => (output_dir ++ "/" ++ env.timestamp ++ "/classes" ++ "/" ++
          e.file_name ++ ".md", e.content))),
    ?_, ?_, rfl, ?_, rfl, ?_⟩
  · unfold bundle_documentation generate_markdown_files
    simp only [hgf, hgc, harch]
    simp
  · simp
  · simp only [List.map_append, List.map_map]
    rfl
  · intro p
    rw [applyWrites_key_mem]
    simp only [List.not_mem_nil, exists_const, false_or]
    constructor
    · rintro ⟨c, hc⟩
      rcases List.mem_append.mp hc with h | h
      · rcases List.mem_map.mp h with ⟨e, he, hpe⟩
        exact List.mem_append.mpr (Or.inl (List.mem_map.mpr
          ⟨e, he, congrArg Prod.fst hpe⟩))
      · rcases List.mem_map.mp h with ⟨e, he, hpe⟩
        exact List.mem_append.mpr (Or.inr (List.mem_map.mpr
          ⟨e, he, congrArg Prod.fst hpe⟩))
    · intro hp
      rcases List.mem_append.mp hp with h | h
      · rcases List.mem_map.mp h with ⟨e, he, hpe⟩
        exact ⟨e.content, List.mem_append.mpr (Or.inl (List.mem_map.mpr
          ⟨e, he, by rw [hpe]⟩))⟩
      · rcases List.mem_map.mp h with ⟨e, he, hpe⟩
        exact ⟨e.content, List.mem_append.mpr (Or.inr (List.mem_map.mpr
          ⟨e, he, by rw [hpe]⟩))⟩

theorem C6_roundtrip_witness :
    ∃ files tr arch,
      bundle_documentation sampleEnvTwo "docs_output" false =
        (bundledResult ("docs_output" ++ "/" ++ sampleEnvTwo.timestamp) files,
          tr,
          some ("docs_output" ++ "/" ++ sampleEnvTwo.timestamp ++ ".zip",
            arch)) ∧
      files.length = sampleEnvTwo.separated.functions.length +
        sampleEnvTwo.separated.classes.length ∧
      tr = sampleEnvTwo.separated.functions.map
             (fun e => ("docs_output" ++ "/" ++ sampleEnvTwo.timestamp ++
               "/functions" ++ "/" ++ e.file_name ++ ".md", e.content)) ++
           sampleEnvTwo.separated.classes.map
             (fun e => ("docs_output" ++ "/" ++ sampleEnvTwo.timestamp ++
               "/classes" ++ "/" ++ e.file_name ++ ".md", e.content)) ∧
      files = tr.map Prod.fst ∧
      arch = applyWrites [] tr ∧
      (∀ p, (∃ c, (p, c) ∈ arch) ↔ p ∈ files) :=
  C6_roundtrip sampleEnvTwo "docs_output" (fun _ => rfl) rfl

theorem writeEntries_error_of_fail (we : String → Option String) (dir : String)
    (es : List SplitEntry)
    (h : ∃ e ∈ es, we (dir ++ "/" ++ e.file_name ++ ".md") ≠ none) :
    ∃ m, writeEntries we dir es = Except.error m := by
  induction es with
  | nil => simp at h
  | cons e rest ih =>
    rcases h with ⟨q, hq, hf⟩
    rcases hp : we (dir ++ "/" ++ e.file_name ++ ".md") with _ | msg
    · rcases List.mem_cons.mp hq with rfl | hrest
      · exact absurd hp hf
      · rcases ih ⟨q, hrest, hf⟩ with ⟨m, hm⟩
        exact ⟨m, by simp [writeEntries, hp, hm]⟩
    · exact ⟨msg, by simp [writeEntries, hp]⟩

/-- C7: if writing any individual split entry's file fails, the
file-generation step raises the generic bundling error
(`"Failed to generate markdown files: ..."`), the overall call returns
status `"error"` with that error text and the details message, and no
partial Bundle Result is returned: `generated_files` is absent, the write
trace is discarded, and no archive is produced — for either value of the
confirmation flag. -/
theorem C7_write_failure_aborts (env : BundlerEnv) (output_dir : String)
    (conf : Bool)
    (hfail :
      (∃ e ∈ env.separated.functions,
        env.writeErr (output_dir ++ "/" ++ env.timestamp ++ "/functions" ++
          "/" ++ e.file_name ++ ".md") ≠ none) ∨
      (∃ e ∈ env.separated.classes,
        env.writeErr (output_dir ++ "/" ++ env.timestamp ++ "/classes" ++
          "/" ++ e.file_name ++ ".md") ≠ none)) :
    ∃ m, bundle_documentation env output_dir conf =
        (bundleError ("Failed to generate markdown files: " ++ m), [], none) ∧
      (bundleError ("Failed to generate markdown files: " ++ m)).status =
        "error" ∧
      (bundleError ("Failed to generate markdown files: " ++ m)).error =
        some ("Failed to generate markdown files: " ++ m) ∧
      (bundleError ("Failed to generate markdown files: " ++ m)).details =
        some "Failed to bundle documentation" ∧
      (bundleError ("Failed to generate markdown files: " ++ m)).generated_files =
        none ∧
      (bundleError ("Failed to generate markdown files: " ++ m)).zip_file =
        none := by
  rcases hfail with hfun | hcls
  · rcases writeEntries_error_of_fail env.writeErr _ _ hfun with ⟨m, hm⟩
    refine ⟨m, ?_, rfl, rfl, rfl, rfl, rfl⟩
    unfold bundle_documentation generate_markdown_files
    simp only [hm]
  · rcases hwf : writeEntries env.writeErr
        (output_dir ++ "/" ++ env.timestamp ++ "/functions")
        env.separated.functions with m1 | pr
    · refine ⟨m1, ?_, rfl, rfl, rfl, rfl, rfl⟩
      unfold bundle_documentation generate_markdown_files
      simp only [hwf]
    · rcases writeEntries_error_of_fail env.writeErr _ _ hcls with ⟨m, hm⟩
      refine ⟨m, ?_, rfl, rfl, rfl, rfl, rfl⟩
      unfold bundle_documentation generate_markdown_files
      rcases pr with ⟨ps1, tr1⟩
      simp only [hwf, hm]

theorem C7_write_failure_aborts_witness :
    ∃ m, bundle_documentation sampleEnvBadWrite "docs_output" false =
        (bundleError ("Failed to generate markdown files: " ++ m), [], none) ∧
      (bundleError ("Failed to generate markdown files: " ++ m)).status =
        "error" ∧
      (bundleError ("Failed to generate markdown files: " ++ m)).error =
        some ("Failed to generate markdown files: " ++ m) ∧
      (bundleError ("Failed to generate markdown files: " ++ m)).details =
        some "Failed to bundle documentation" ∧
      (bundleError ("Failed to generate markdown files: " ++ m)).generated_files =
        none ∧
      (bundleError ("Failed to generate markdown files: " ++ m)).zip_file =
        none :=
  C7_write_failure_aborts sampleEnvBadWrite "docs_output" false
    (Or.inl ⟨⟨"f", "doc of f", "f"⟩,
      by simp [sampleEnvBadWrite, sampleSplitOne],
      by simp [sampleEnvBadWrite]⟩)

/-- C2: no stage node ever propagates an exception — for every environment,
a stage whose underlying operation fails returns normally with an
error-field patch (output field emptied, `error` set, inline message
emitted) — and the graph always advances through every remaining node,
visiting the full pipeline (with the one data-dependent branch) and
reaching the terminal `END` transition after the report node, regardless of
which stages failed. -/
theorem C2_graph_always_reaches_end (env : GraphEnv) (s0 : GraphState) :
    ((runGraph env s0).reachedEnd = true ∧
      (runGraph env s0).visited =
        [Node.mcpConnection, Node.codeParser, Node.contextEnrichment,
          (if route_documentation_type (some s0.doc_type) = Route.function_doc
            then Node.functionDocumentation else Node.readmeDocumentation),
          Node.verification, Node.fileBundler, Node.finalReport]) ∧
    (∀ e s, execNode { env with mcpOutcome := Except.error e } Node.mcpConnection s = ({ s with mcp_response := none, error := e }, ["❌ MCP Connection failed: " ++ e])) ∧
    (∀ e s, execNode { env with parserOutcome := Except.error e } Node.codeParser s = ({ s with code_analysis := none, error := e }, ["❌ Code parsing failed: " ++ e])) ∧
    (∀ e s, execNode { env with contextOutcome := Except.error e } Node.contextEnrichment s = ({ s with context_data := "", error := e }, ["❌ Context enrichment failed: " ++ e])) ∧
    (∀ e s, execNode { env with readmeOutcome := Except.error e } Node.readmeDocumentation s = ({ s with documentation := none, error := e }, ["❌ README documentation generation failed: " ++ e])) ∧
    (∀ e s, execNode { env with funcOutcome := Except.error e } Node.functionDocumentation s = ({ s with documentation := none, error := e }, ["❌ Function API documentation generation failed: " ++ e])) ∧
    (∀ e s, execNode { env with verifyOutcome := Except.error e } Node.verification s = ({ s with validation_result := none, error := e }, ["❌ Verification failed: " ++ e])) ∧
    (∀ e s, execNode { env with bundleOutcome := Except.error e } Node.fileBundler s = ({ s with bundle_result := none, error := e }, ["❌ Bundling failed: " ++ e])) := by
  rcases hrt : route_documentation_type (some s0.doc_type) with _ | _ <;>
    simp [runGraph, runSteps, execNode, nextNode, hrt, exOpt, errStr, exStr,
      failMsg]

/-- C8 counterexample: a run in which the first stage records the error
`"boom"` but every later stage succeeds; each successful stage resets the
`error` field, so the final state's error is empty and the final report is
the summary — it does not echo the first recorded error text (the only
trace of the failure is the stage's inline message). -/
theorem C8_counterexample :
    sampleGraphEnvMcpFail.mcpOutcome = Except.error "boom" ∧
    ("❌ MCP Connection failed: boom") ∈
      (runGraph sampleGraphEnvMcpFail sampleState0).messages ∧
    (runGraph sampleGraphEnvMcpFail sampleState0).state.error = "" ∧
    reportOf (runGraph sampleGraphEnvMcpFail sampleState0).state ≠
      Report.failed "boom" := by
  refine ⟨rfl, ?_, rfl, ?_⟩
  · simp [runGraph, runSteps, execNode, nextNode, sampleGraphEnvMcpFail,
      sampleState0, exOpt, errStr, exStr, failMsg, route_documentation_type,
      pyIn, pyLower]
  · intro h
    rw [show reportOf (runGraph sampleGraphEnvMcpFail sampleState0).state =
        summaryOf (runGraph sampleGraphEnvMcpFail sampleState0).state from rfl]
      at h
    exact Report.noConfusion h

/-- C8 (amended): failures do surface as inline per-stage status messages,
but the `error` field is last-write-wins and reset by every successful
stage, so the final report echoes the error of the last stage (the bundler)
when that stage failed with a truthy message — an error recorded by any
earlier stage is erased by the next successful stage.  When the final error
field is empty, the report renders the bundle and validation sections even
when those fields are empty (every field is read with a default); when it
is non-empty, the report echoes it and renders no sections. -/
theorem C8_report_semantics (env : GraphEnv) (s0 : GraphState) :
    ((runGraph env s0).state.error =
      (match env.bundleOutcome with | .error e => e | .ok _ => "")) ∧
    (reportOf (runGraph env s0).state =
      (match env.bundleOutcome with
       | .error e =>
         if e = "" then summaryOf (runGraph env s0).state else Report.failed e
       | .ok _ => summaryOf (runGraph env s0).state)) ∧
    (match env.verifyOutcome, env.bundleOutcome with
     | .error _, .ok br =>
       summaryOf (runGraph env s0).state =
         Report.summary s0.repository_info (pyUpper s0.doc_type) false 0 0
           (br.generated_files.getD []).length (br.base_directory.getD "N/A")
           (br.zip_file.getD "N/A")
     | _, _ => True) ∧
    (match env.mcpOutcome with
     | .error e => ("❌ MCP Connection failed: " ++ e) ∈
        (runGraph env s0).messages
     | .ok _ => True) ∧
    (match env.parserOutcome with
     | .error e => ("❌ Code parsing failed: " ++ e) ∈
        (runGraph env s0).messages
     | .ok _ => True) ∧
    (match env.contextOutcome with
     | .error e => ("❌ Context enrichment failed: " ++ e) ∈
        (runGraph env s0).messages
     | .ok _ => True) ∧
    (match route_documentation_type (some s0.doc_type), env.readmeOutcome with
     | Route.readme_doc, .error e =>
       ("❌ README documentation generation failed: " ++ e) ∈
        (runGraph env s0).messages
     | _, _ => True) ∧
    (match route_documentation_type (some s0.doc_type), env.funcOutcome with
     | Route.function_doc, .error e =>
       ("❌ Function API documentation generation failed: " ++ e) ∈
        (runGraph env s0).messages
     | _, _ => True) ∧
    (match env.verifyOutcome with
     | .error e => ("❌ Verification failed: " ++ e) ∈
        (runGraph env s0).messages
     | .ok _ => True) ∧
    (match env.bundleOutcome with
     | .error e => ("❌ Bundling failed: " ++ e) ∈ (runGraph env s0).messages
     | .ok _ => True) := by
  rcases hrt : route_documentation_type (some s0.doc_type) with _ | _ <;>
    refine ⟨?_, ?_, ?_, ?_, ?_, ?_, ?_, ?_, ?_, ?_⟩
  case readme_doc.refine_1 | function_doc.refine_1 =>
    rcases h6 : env.bundleOutcome with e6 | r6 <;>
      simp [runGraph, runSteps, execNode, nextNode, hrt, exOpt, errStr,
        exStr, failMsg, h6]
  case readme_doc.refine_2 | function_doc.refine_2 =>
    rcases h6 : env.bundleOutcome with e6 | r6 <;>
      simp [runGraph, runSteps, execNode, nextNode, hrt, exOpt, errStr,
        exStr, failMsg, reportOf, h6]
  case readme_doc.refine_3 | function_doc.refine_3 =>
    rcases h5 : env.verifyOutcome with e5 | r5 <;>
      rcases h6 : env.bundleOutcome with e6 | r6 <;>
      simp [runGraph, runSteps, execNode, nextNode, hrt, exOpt, errStr,
        exStr, failMsg, summaryOf, vpValidation, h5, h6]
  case readme_doc.refine_4 | function_doc.refine_4 =>
    rcases h1 : env.mcpOutcome with e1 | r1 <;>
      simp [runGraph, runSteps, execNode, nextNode, hrt, exOpt, errStr,
        exStr, failMsg, h1]
  case readme_doc.refine_5 | function_doc.refine_5 =>
    rcases h2 : env.parserOutcome with e2 | r2 <;>
      simp [runGraph, runSteps, execNode, nextNode, hrt, exOpt, errStr,
        exStr, failMsg, h2]
  case readme_doc.refine_6 | function_doc.refine_6 =>
    rcases h3 : env.contextOutcome with e3 | r3 <;>
      simp [runGraph, runSteps, execNode, nextNode, hrt, exOpt, errStr,
        exStr, failMsg, h3]
  case readme_doc.refine_7 =>
    rcases h4 : env.readmeOutcome with e4 | r4 <;>
      simp [runGraph, runSteps, execNode, nextNode, hrt, exOpt, errStr,
        exStr, failMsg, h4]
  case function_doc.refine_7 =>
    simp [hrt]
  case readme_doc.refine_8 =>
    simp [hrt]
  case function_doc.refine_8 =>
    rcases h4 : env.funcOutcome with e4 | r4 <;>
      simp [runGraph, runSteps, execNode, nextNode, hrt, exOpt, errStr,
        exStr, failMsg, h4]
  case readme_doc.refine_9 | function_doc.refine_9 =>
    rcases h5 : env.verifyOutcome with e5 | r5 <;>
      simp [runGraph, runSteps, execNode, nextNode, hrt, exOpt, errStr,
        exStr, failMsg, h5]
  case readme_doc.refine_10 | function_doc.refine_10 =>
    rcases h6 : env.bundleOutcome with e6 | r6 <;>
      simp [runGraph, runSteps, execNode, nextNode, hrt, exOpt, errStr,
        exStr, failMsg, h6]

/-- C9: on the failing input — an LLM reply that is valid JSON but not a
list, here the JSON string literal `"hello"` — `code_parser_work` returns
the parsed non-list value as a success instead of the SHAPE_FAILURE error
object the contract (and the code's own dead `except TypeError` handler,
whose message reads "The response is not a valid JSON array.") prescribes:
`json.loads` on a `str` never raises `TypeError`, so the shape check never
runs. -/
theorem C9_nonlist_reply_returned_as_success :
    code_parser_work
        { contentAccess := Except.ok "code sample",
          llmReply := "\"hello\"".data,
          jsonLoads := fun s =>
            if s = "\"hello\"".data then Except.ok (Json.str "hello")
            else Except.error "Expecting value" } =
      ParserResult.elements (Json.str "hello") ∧
    (∀ l, Json.str "hello" ≠ Json.arr l) :=
  ⟨rfl, fun _ h => Json.noConfusion h⟩

theorem ofNat_plus32_not_upper (n : Nat) (h1 : 65 ≤ n) (h2 : n ≤ 90) :
    (Char.ofNat (n + 32)).isUpper = false := by
  interval_cases n <;> decide

theorem isUpper_pyLowerChar (c : Char) : (pyLowerChar c).isUpper = false := by
  unfold pyLowerChar
  by_cases h : c.isUpper = true
  · rw [if_pos h]
    have hb : 65 ≤ c.toNat ∧ c.toNat ≤ 90 := by
      simp only [Char.isUpper, Bool.and_eq_true, decide_eq_true_eq] at h
      exact ⟨h.1, h.2⟩
    exact ofNat_plus32_not_upper c.toNat hb.1 hb.2
  · rw [if_neg h]
    exact Bool.not_eq_true _ |>.mp h ▸ rfl

theorem matchGroupAt_subset {s r : List Char} (h : matchGroupAt s = some r) :
    ∀ c ∈ r, c ∈ s := by
  simp only [matchGroupAt] at h
  split_ifs at h with hcond
  · injection h with h'
    subst h'
    intro c hc
    rcases List.mem_append.mp hc with hin | hin
    · exact (List.dropWhile_sublist isPySpace).subset
        ((List.takeWhile_sublist isWordChar).subset hin)
    · rcases List.mem_cons.mp hin with rfl | hin2
      · have hslash : ('/' : Char) ∈ (s.dropWhile isPySpace).drop
            ((s.dropWhile isPySpace).takeWhile isWordChar).length :=
          List.mem_of_mem_head? (by rw [hcond.2.1]; rfl)
        exact (List.dropWhile_sublist isPySpace).subset
          (List.drop_subset _ _ hslash)
      · have h1 : c ∈ ((s.dropWhile isPySpace).drop
            ((s.dropWhile isPySpace).takeWhile isWordChar).length).drop 1 :=
          (List.takeWhile_sublist isWordChar).subset hin2
        exact (List.dropWhile_sublist isPySpace).subset
          (List.drop_subset _ _ (List.drop_subset _ _ h1))

theorem matchAt_subset {s r : List Char} (h : matchAt s = some r) :
    ∀ c ∈ r, c ∈ s := by
  unfold matchAt at h
  rcases h1 : (if "repository".data.isPrefixOf s then matchGroupAt (s.drop 10)
      else none) with _ | r1
  · rw [h1] at h
    rcases h2 : (if "repo".data.isPrefixOf s then matchGroupAt (s.drop 4)
        else none) with _ | r2
    · rw [h2] at h
      exact fun c hc => matchGroupAt_subset h c hc
    · rw [h2] at h
      injection h with h'
      subst h'
      by_cases hp : "repo".data.isPrefixOf s
      · rw [if_pos hp] at h2
        exact fun c hc => List.drop_subset _ _ (matchGroupAt_subset h2 c hc)
      · rw [if_neg hp] at h2
        exact absurd h2 (by simp)
  · rw [h1] at h
    injection h with h'
    subst h'
    by_cases hp : "repository".data.isPrefixOf s
    · rw [if_pos hp] at h1
      exact fun c hc => List.drop_subset _ _ (matchGroupAt_subset h1 c hc)
    · rw [if_neg hp] at h1
      exact absurd h1 (by simp)

theorem searchRepo_subset {s r : List Char} (h : searchRepo s = some r) :
    ∀ c ∈ r, c ∈ s := by
  induction s with
  | nil => exact fun c hc => matchAt_subset h c hc
  | cons a rest ih =>
    unfold searchRepo at h
    rcases hm : matchAt (a :: rest) with _ | r1
    · rw [hm] at h
      exact fun c hc => List.mem_cons_of_mem a (ih h c hc)
    · rw [hm] at h
      injection h with h'
      subst h'
      exact fun c hc => matchAt_subset hm c hc

/-- C10: the message handler lowercases the entire message before searching
for the `owner/repo` pattern, so every character of the extracted
repository identifier is non-uppercase — an owner or repository name with
uppercase characters is silently rewritten to its lowercase form before any
stage sees it. -/
theorem C10_repo_identifier_lowercase (msg r : List Char)
    (h : extractRepo msg = some r) :
    ∀ c ∈ r, c.isUpper = false := by
  intro c hc
  have hmem : c ∈ pyLower msg := searchRepo_subset h c hc
  rcases List.mem_map.mp hmem with ⟨d, _, rfl⟩
  exact isUpper_pyLowerChar d

theorem C10_repo_identifier_lowercase_witness :
    extractRepo "Repo Acme/Widget".data = some "acme/widget".data ∧
    (∀ c ∈ ("acme/widget".data : List Char), c.isUpper = false) :=
  ⟨by decide,
    C10_repo_identifier_lowercase "Repo Acme/Widget".data "acme/widget".data
      (by decide)⟩

end CodeToDocs
